import Mathlib

/-!
A shallow embedding of the two-stage restaurant pipeline of
`simple_langchain/main.py` (manual runner `main`, automatic runner
`main_with_sequential_chain`, prompt templates, report sink, `__main__`
dispatch) and of the windowed conversational memory wiring of
`simple_agent_with_memory/main.py`, together with theorems checking the
specification's claims against these definitions.

Python strings become `String`, dicts of strings become association
lists in insertion order, exceptions become `Except` with an error type
mirroring the Python exception classes involved, and the observable
side effects of a run (console prints, capability calls, file writes)
are collected in an explicit `Effects` record.
-/

/-- Opening brace character, via its code point. -/
def lbrace : Char := Char.ofNat 123

/-- Closing brace character, via its code point. -/
def rbrace : Char := Char.ofNat 125

/-- Single-quote string, via its code point (used by the Python repr of a dict). -/
def squote : String := String.mk [Char.ofNat 39]

/-- One piece of a Python format string: literal text or a named placeholder. -/
inductive Piece where
  | lit (s : String)
  | var (name : String)
deriving DecidableEq

/-- Split a list of characters of a Python format string into literal runs and
placeholder parts. The fuel argument makes the recursion structural; it is
instantiated with the length of the string, which suffices because every step
consumes at least one character. -/
def parsePartsAux : Nat → List Char → List Piece
  | 0, _ => []
  | _, [] => []
  | fuel + 1, c :: rest =>
    if c = lbrace then
      let nm := rest.takeWhile (fun d => d != rbrace)
      let tail := (rest.dropWhile (fun d => d != rbrace)).drop 1
      Piece.var (String.mk nm) :: parsePartsAux fuel tail
    else
      let run := (c :: rest).takeWhile (fun d => d != lbrace)
      let tail := (c :: rest).dropWhile (fun d => d != lbrace)
      Piece.lit (String.mk run) :: parsePartsAux fuel tail

/-- Split a Python format string into its parts. -/
def parseParts (s : String) : List Piece := parsePartsAux s.data.length s.data

/-- A Python dict of strings: an association list in insertion order. -/
abbrev Bindings := List (String × String)

/-- Dict lookup: the value bound to a key, if present. -/
def lookupB (b : Bindings) (k : String) : Option String :=
  (b.find? (fun p => p.1 == k)).map (fun p => p.2)

/-- Errors a run can raise, mirroring the Python exception classes involved:
`KeyError` from `str.format` or missing chain inputs, the completion
capability's failure, `ValueError` from SequentialChain validation, and
`TypeError` from the calling conventions. -/
inductive PyError where
  | keyError (name : String)
  | capability (msg : String)
  | valueError (msg : String)
  | typeError (msg : String)
deriving DecidableEq

/-- Render parsed parts against bindings; a placeholder with no binding raises
`KeyError`, as Python `str.format` does. -/
def renderParts : List Piece → Bindings → Except PyError String
  | [], _ => .ok ""
  | Piece.lit s :: tail, b =>
    match renderParts tail b with
    | .error e => .error e
    | .ok t => .ok (s ++ t)
  | Piece.var n :: tail, b =>
    match lookupB b n with
    | none => .error (.keyError n)
    | some v =>
      match renderParts tail b with
      | .error e => .error e
      | .ok t => .ok (v ++ t)

/-- A langchain `PromptTemplate`: the declared input variables and the format
string. -/
structure PromptTemplate where
  input_variables : List String
  template : String
deriving DecidableEq

/-- Formatting a template against bindings. Both call sites in the source
(`prompt | llm` invocation and `LLMChain`) first require every declared input
variable to be bound (a missing one raises `KeyError`), then render the format
string with `str.format`. -/
def PromptTemplate.format (t : PromptTemplate) (b : Bindings) : Except PyError String :=
  match t.input_variables.find? (fun v => (lookupB b v).isNone) with
  | some v => .error (.keyError v)
  | none => renderParts (parseParts t.template) b

/-- The placeholder names referenced by a format string, in order of
appearance. -/
def placeholders (s : String) : List String :=
  (parseParts s).filterMap (fun p =>
    match p with
    | Piece.var n => some n
    | Piece.lit _ => none)

/-- The completion capability: a deterministic stub mapping a fully rendered
prompt to generated text, or failing with an error message. -/
abbrev LLM := String → Except String String

/-- The filesystem as seen by the report sink: writing a (filename, content)
pair either succeeds or fails with a message. -/
abbrev FS := String → String → Except String Unit

/-- A capture-time timestamp (`datetime.now()`). -/
structure DateTime where
  year : Nat
  month : Nat
  day : Nat
  hour : Nat
  minute : Nat
  second : Nat
deriving DecidableEq

/-- Zero-pad a number to the given width, as `strftime` does. -/
def padNum (w n : Nat) : String :=
  let s := toString n
  if s.length < w then String.mk (List.replicate (w - s.length) '0') ++ s else s

/-- The timestamp in `strftime("%Y%m%d_%H%M%S")` form. -/
def DateTime.compact (t : DateTime) : String :=
  padNum 4 t.year ++ padNum 2 t.month ++ padNum 2 t.day ++ "_" ++
    padNum 2 t.hour ++ padNum 2 t.minute ++ padNum 2 t.second

/-- The timestamp in `strftime("%Y-%m-%d %H:%M:%S")` form. -/
def DateTime.human (t : DateTime) : String :=
  padNum 4 t.year ++ "-" ++ padNum 2 t.month ++ "-" ++ padNum 2 t.day ++ " " ++
    padNum 2 t.hour ++ ":" ++ padNum 2 t.minute ++ ":" ++ padNum 2 t.second

/-- The report filename, `f"restaurant_output_{timestamp}.txt"`. -/
def reportFilename (now : DateTime) : String :=
  "restaurant_output_" ++ now.compact ++ ".txt"

/-- The 50-dash separator written into the report. -/
def dashes50 : String := String.mk (List.replicate 50 '-')

/-- The 50-equals footer written into the report. -/
def equals50 : String := String.mk (List.replicate 50 '=')

/-- Python `str()` of a dict of strings whose keys and values contain no quote
characters: comma-separated single-quoted key/value pairs inside braces. -/
def pyDictRepr (d : List (String × String)) : String :=
  "\x7b" ++
    String.intercalate ", "
      (d.map (fun p => squote ++ p.1 ++ squote ++ ": " ++ squote ++ p.2 ++ squote)) ++
    "\x7d"

/-- Observable side effects of one run: console lines printed by the program
itself (the imported library's verbose logging is not modelled), the prompts
sent to the completion capability in order, the capability's replies in order,
the file writes attempted by the sink, and those writes that persisted. -/
structure Effects where
  printed : List String
  prompts : List String
  completions : List String
  writeAttempts : List (String × String)
  persisted : List (String × String)
deriving DecidableEq

namespace Restaurant

/-- Source `create_restaurant_name_prompt_template` (main.py lines 32-47). -/
def create_restaurant_name_prompt_template : PromptTemplate :=
  { input_variables := ["cuisine"],
    template := "I want to open a restaurant for {cuisine} food. Suggest a fancy name for this. Only single name" }

/-- Source `create_restaurant_menu_prompt_template` (main.py lines 49-64). -/
def create_restaurant_menu_prompt_template : PromptTemplate :=
  { input_variables := ["restaurant_name"],
    template := "Suggest some veg menu items for {restaurant_name}. Return it as comma separated list." }

/-- The content the manual runner `main` writes to the report file
(main.py lines 190-198): header, `Generated on`, `Method`, `Cuisine Type`,
a 50-dash separator followed by a blank line, `Restaurant Name` followed by a
blank line, `Menu Items`, a blank line and the 50-equals footer. -/
def manualReport (cuisine nameOut menuOut : String) (now : DateTime) : String :=
  "=== LangChain Restaurant Generator Output ===\n" ++
    ("Generated on: " ++ now.human ++ "\n") ++
    "Method: Manual Chain Management\n" ++
    ("Cuisine Type: " ++ cuisine ++ "\n") ++
    (dashes50 ++ "\n\n") ++
    ("Restaurant Name: " ++ nameOut ++ "\n\n") ++
    ("Menu Items: " ++ menuOut ++ "\n") ++
    ("\n" ++ equals50)

/-- The content `main_with_sequential_chain` writes to the report file
(main.py lines 127-135): as the manual report but with no `Method` line and
with an extra `Sequential Chain Final Output` line holding the Python repr of
the whole result dict. -/
def seqReport (cuisine : String) (result : List (String × String))
    (nameOut menuOut : String) (now : DateTime) : String :=
  "=== LangChain Restaurant Generator Output ===\n" ++
    ("Generated on: " ++ now.human ++ "\n") ++
    ("Cuisine Type: " ++ cuisine ++ "\n") ++
    (dashes50 ++ "\n\n") ++
    ("Sequential Chain Final Output: " ++ pyDictRepr result ++ "\n\n") ++
    ("Restaurant Name: " ++ nameOut ++ "\n\n") ++
    ("Menu Items: " ++ menuOut ++ "\n") ++
    ("\n" ++ equals50)

/-- Source `main` (main.py lines 144-203), the manual runner. Python-wise it
returns `None` on success (the function body has no return statement), so the
success value is `Unit`; the collaborators carry their `None` defaults as
`Option` values. Line 169 composes the name template with the model, which
raises `TypeError` as soon as either operand of `|` is `None`; line 170 does
the same for the menu chain; lines 174 and 177 invoke the two chains in
sequence, each invocation rendering its template and calling the capability;
lines 180-182 print the outputs; lines 185-203 write the report inside a
`try`, printing and swallowing any write failure. -/
def main (cuisine : String) (llm : Option LLM)
    (restaurant_name_prompt restaurant_menu_prompt : Option PromptTemplate)
    (fs : FS) (now : DateTime) : Except PyError Unit × Effects :=
  let printed0 := ["Main Called"]
  match restaurant_name_prompt, llm with
  | none, _ =>
    (.error (.typeError "unsupported operand type(s) for |: NoneType"),
      ⟨printed0, [], [], [], []⟩)
  | some _, none =>
    (.error (.typeError "expected a Runnable, got NoneType"),
      ⟨printed0, [], [], [], []⟩)
  | some nameT, some llmF =>
    match restaurant_menu_prompt with
    | none =>
      (.error (.typeError "unsupported operand type(s) for |: NoneType"),
        ⟨printed0, [], [], [], []⟩)
    | some menuT =>
      match nameT.format [("cuisine", cuisine)] with
      | .error e => (.error e, ⟨printed0, [], [], [], []⟩)
      | .ok p1 =>
        match llmF p1 with
        | .error msg => (.error (.capability msg), ⟨printed0, [p1], [], [], []⟩)
        | .ok nameOut =>
          match menuT.format [("restaurant_name", nameOut)] with
          | .error e => (.error e, ⟨printed0, [p1], [nameOut], [], []⟩)
          | .ok p2 =>
            match llmF p2 with
            | .error msg =>
              (.error (.capability msg), ⟨printed0, [p1, p2], [nameOut], [], []⟩)
            | .ok menuOut =>
              match fs (reportFilename now) (manualReport cuisine nameOut menuOut now) with
              | .ok _ =>
                (.ok (),
                  ⟨printed0 ++
                      ["\nFinal Output:", "Restaurant: " ++ nameOut, "Menu: " ++ menuOut,
                        "\n✅ Results saved to: " ++ reportFilename now],
                    [p1, p2], [nameOut, menuOut],
                    [(reportFilename now, manualReport cuisine nameOut menuOut now)],
                    [(reportFilename now, manualReport cuisine nameOut menuOut now)]⟩)
              | .error msg =>
                (.ok (),
                  ⟨printed0 ++
                      ["\nFinal Output:", "Restaurant: " ++ nameOut, "Menu: " ++ menuOut,
                        "\n❌ Error saving to file: " ++ msg],
                    [p1, p2], [nameOut, menuOut],
                    [(reportFilename now, manualReport cuisine nameOut menuOut now)],
                    []⟩)

/-- Source `main_with_sequential_chain` (main.py lines 66-142), the automatic
runner. The two `LLMChain`s require a model and a prompt (a `None` collaborator
fails at construction); the `SequentialChain` constructor then validates the
dependency graph before anything runs: each chain's declared input variables
must be satisfied by the initial input variables together with the output keys
of earlier chains, no chain may shadow an already known key, and every declared
output variable must be produced. The invocation at line 114 then runs the two
chains in order on an accumulating dict and returns the inputs together with
the declared output variables; lines 117-119 print, lines 122-142 write the
report inside a `try`, swallowing write failures, and line 142 returns the
result dict. -/
def main_with_sequential_chain (cuisine : String) (llm : Option LLM)
    (restaurant_name_prompt restaurant_menu_prompt : Option PromptTemplate)
    (fs : FS) (now : DateTime) :
    Except PyError (List (String × String)) × Effects :=
  let printed0 := ["Sequential Chain Implementation Called"]
  match llm, restaurant_name_prompt, restaurant_menu_prompt with
  | none, _, _ =>
    (.error (.typeError "llm must not be None"), ⟨printed0, [], [], [], []⟩)
  | _, none, _ =>
    (.error (.typeError "prompt must not be None"), ⟨printed0, [], [], [], []⟩)
  | _, _, none =>
    (.error (.typeError "prompt must not be None"), ⟨printed0, [], [], [], []⟩)
  | some llmF, some nameT, some menuT =>
    let known0 : List String := ["cuisine"]
    match nameT.input_variables.find? (fun v => !(known0.contains v)) with
    | some v =>
      (.error (.valueError ("Missing required input keys: " ++ v)),
        ⟨printed0, [], [], [], []⟩)
    | none =>
      if known0.contains "restaurant_name" then
        (.error (.valueError "Chain returned keys that already exist"),
          ⟨printed0, [], [], [], []⟩)
      else
        let known1 := known0 ++ ["restaurant_name"]
        match menuT.input_variables.find? (fun v => !(known1.contains v)) with
        | some v =>
          (.error (.valueError ("Missing required input keys: " ++ v)),
            ⟨printed0, [], [], [], []⟩)
        | none =>
          if known1.contains "menu_items" then
            (.error (.valueError "Chain returned keys that already exist"),
              ⟨printed0, [], [], [], []⟩)
          else
            let d0 : Bindings := [("cuisine", cuisine)]
            match nameT.format d0 with
            | .error e => (.error e, ⟨printed0, [], [], [], []⟩)
            | .ok p1 =>
              match llmF p1 with
              | .error msg => (.error (.capability msg), ⟨printed0, [p1], [], [], []⟩)
              | .ok nameOut =>
                let d1 := d0 ++ [("restaurant_name", nameOut)]
                match menuT.format d1 with
                | .error e => (.error e, ⟨printed0, [p1], [nameOut], [], []⟩)
                | .ok p2 =>
                  match llmF p2 with
                  | .error msg =>
                    (.error (.capability msg), ⟨printed0, [p1, p2], [nameOut], [], []⟩)
                  | .ok menuOut =>
                    let result := d1 ++ [("menu_items", menuOut)]
                    match fs (reportFilename now) (seqReport cuisine result nameOut menuOut now) with
                    | .ok _ =>
                      (.ok result,
                        ⟨printed0 ++
                            ["\nSequential Chain Final Output: " ++ pyDictRepr result,
                              "Restaurant: " ++ nameOut, "Menu: " ++ menuOut,
                              "\n✅ Results saved to: " ++ reportFilename now],
                          [p1, p2], [nameOut, menuOut],
                          [(reportFilename now, seqReport cuisine result nameOut menuOut now)],
                          [(reportFilename now, seqReport cuisine result nameOut menuOut now)]⟩)
                    | .error msg =>
                      (.ok result,
                        ⟨printed0 ++
                            ["\nSequential Chain Final Output: " ++ pyDictRepr result,
                              "Restaurant: " ++ nameOut, "Menu: " ++ menuOut,
                              "\n❌ Error saving to file: " ++ msg],
                          [p1, p2], [nameOut, menuOut],
                          [(reportFilename now, seqReport cuisine result nameOut menuOut now)],
                          []⟩)

/-- The console lines the `__main__` block prints before reading the choice. -/
def menuPrints : List String :=
  ["Choose implementation:", "1. Individual Chains (current implementation)",
    "2. Sequential Chain"]

/-- Source `__main__` block (main.py lines 212-259): print the menu, read
`choice` and `cuisine`, build the collaborators (the model is the externally
configured capability, the templates the two creators above) and dispatch.
Any choice other than `"1"` or `"2"` prints the invalid-choice line and falls
back to `main()` called with no arguments at line 259; since `main`'s required
positional parameter `cuisine` has no default, Python raises `TypeError` at
that call itself — `main`'s body is never entered. -/
def entryPoint (choice cuisine : String) (llm : LLM) (fs : FS) (now : DateTime) :
    Except PyError Unit × Effects :=
  if choice = "1" then
    let r := main cuisine (some llm) (some create_restaurant_name_prompt_template)
      (some create_restaurant_menu_prompt_template) fs now
    (r.1, { r.2 with printed := menuPrints ++ r.2.printed })
  else if choice = "2" then
    let r := main_with_sequential_chain cuisine (some llm)
      (some create_restaurant_name_prompt_template)
      (some create_restaurant_menu_prompt_template) fs now
    (r.1.map (fun _ => ()), { r.2 with printed := menuPrints ++ r.2.printed })
  else
    (.error (.typeError "main() missing 1 required positional argument: cuisine"),
      ⟨menuPrints ++ ["Invalid choice. Running default implementation."], [], [], [], []⟩)

end Restaurant

namespace MemoryChat

/-- One human/AI exchange of the conversation. -/
structure Exchange where
  human : String
  ai : String
deriving DecidableEq

/-- Source `create_memory` (simple_agent_with_memory/main.py lines 29-37): a
`ConversationBufferWindowMemory` with window size `k = 5`. -/
def create_memory : Nat := 5

/-- Modelled from the spec: the windowing of the external library's
`ConversationBufferWindowMemory` (library code, not part of this repository's
sources) — a bounded-window conversational memory stores the full exchange
list but exposes only the `k` most recent exchanges when history is loaded. -/
def windowBuffer (k : Nat) (hist : List Exchange) : List Exchange :=
  hist.drop (hist.length - k)

/-- Modelled from the spec: how one remembered exchange is rendered into the
history text, one `Human:` line and one `AI:` line. -/
def formatExchange (e : Exchange) : String :=
  "Human: " ++ e.human ++ "\nAI: " ++ e.ai

/-- Modelled from the spec: the text bound to the `history` placeholder — the
rendering of the window only, newline-separated. -/
def loadHistory (k : Nat) (hist : List Exchange) : String :=
  String.intercalate "\n" ((windowBuffer k hist).map formatExchange)

/-- Source `create_conversation_prompt` (simple_agent_with_memory/main.py
lines 40-58). -/
def create_conversation_prompt : PromptTemplate :=
  { input_variables := ["history", "input"],
    template := "You are a helpful and friendly AI assistant. You remember our previous conversation.\n\n    Current conversation:\n    {history}\n    Human: {input}\n    AI:" }

/-- One `conversation.predict(input=u)` turn of the chain built by
`create_conversation_chain` (lines 61-79): the chain loads the windowed
history from memory, renders the conversation prompt with the `history` and
`input` bindings, invokes the model, and the memory then saves the new
exchange. Returns the rendered prompt, the reply, and the new exchange list. -/
def conversationTurn (llm : LLM) (hist : List Exchange) (u : String) :
    Except PyError (String × String × List Exchange) :=
  match create_conversation_prompt.format
      [("history", loadHistory create_memory hist), ("input", u)] with
  | .error e => .error e
  | .ok p =>
    match llm p with
    | .error msg => .error (.capability msg)
    | .ok resp => .ok (p, resp, hist ++ [⟨u, resp⟩])

end MemoryChat

/-! Helper definitions and lemmas shared by the claim theorems. -/

/-- Split a string into its lines at newline characters (structurally, so that
concrete instances evaluate inside the kernel). -/
def splitLinesAux : List Char → List Char → List String
  | [], acc => [String.mk acc.reverse]
  | c :: rest, acc =>
    if c = '\n' then String.mk acc.reverse :: splitLinesAux rest []
    else splitLinesAux rest (c :: acc)

/-- The lines of a string. -/
def splitLines (s : String) : List String := splitLinesAux s.data []

namespace Restaurant

/-- The fully rendered name prompt for a given cuisine. -/
def namePromptText (c : String) : String :=
  "I want to open a restaurant for " ++
    (c ++ " food. Suggest a fancy name for this. Only single name")

/-- The fully rendered menu prompt for a given restaurant name. -/
def menuPromptText (n : String) : String :=
  "Suggest some veg menu items for " ++ (n ++ ". Return it as comma separated list.")

theorem name_template_parts :
    parseParts create_restaurant_name_prompt_template.template =
      [Piece.lit "I want to open a restaurant for ", Piece.var "cuisine",
        Piece.lit " food. Suggest a fancy name for this. Only single name"] := by
  rfl

theorem menu_template_parts :
    parseParts create_restaurant_menu_prompt_template.template =
      [Piece.lit "Suggest some veg menu items for ", Piece.var "restaurant_name",
        Piece.lit ". Return it as comma separated list."] := by
  rfl

theorem name_format (c : String) :
    create_restaurant_name_prompt_template.format [("cuisine", c)] =
      .ok (namePromptText c) := by
  unfold PromptTemplate.format
  rw [name_template_parts]
  simp [renderParts, lookupB, List.find?, namePromptText, String.append_empty,
    create_restaurant_name_prompt_template]

theorem menu_format (n : String) :
    create_restaurant_menu_prompt_template.format [("restaurant_name", n)] =
      .ok (menuPromptText n) := by
  unfold PromptTemplate.format
  rw [menu_template_parts]
  simp [renderParts, lookupB, List.find?, menuPromptText, String.append_empty,
    create_restaurant_menu_prompt_template]

theorem menu_format_seq (c n : String) :
    create_restaurant_menu_prompt_template.format
        [("cuisine", c), ("restaurant_name", n)] =
      .ok (menuPromptText n) := by
  unfold PromptTemplate.format
  rw [menu_template_parts]
  simp [renderParts, lookupB, List.find?, menuPromptText, String.append_empty,
    create_restaurant_menu_prompt_template]

theorem main_ok_write (cuisine : String) (llm : LLM) (fs : FS) (now : DateTime)
    (n m : String)
    (h1 : llm (namePromptText cuisine) = .ok n)
    (h2 : llm (menuPromptText n) = .ok m)
    (h3 : fs (reportFilename now) (manualReport cuisine n m now) = .ok ()) :
    main cuisine (some llm) (some create_restaurant_name_prompt_template)
      (some create_restaurant_menu_prompt_template) fs now =
    (.ok (),
      ⟨["Main Called", "\nFinal Output:", "Restaurant: " ++ n, "Menu: " ++ m,
          "\n✅ Results saved to: " ++ reportFilename now],
        [namePromptText cuisine, menuPromptText n], [n, m],
        [(reportFilename now, manualReport cuisine n m now)],
        [(reportFilename now, manualReport cuisine n m now)]⟩) := by
  unfold main
  simp only [name_format, h1, menu_format, h2, h3, List.cons_append, List.nil_append]

theorem main_ok_writefail (cuisine : String) (llm : LLM) (fs : FS) (now : DateTime)
    (n m msg : String)
    (h1 : llm (namePromptText cuisine) = .ok n)
    (h2 : llm (menuPromptText n) = .ok m)
    (h3 : fs (reportFilename now) (manualReport cuisine n m now) = .error msg) :
    main cuisine (some llm) (some create_restaurant_name_prompt_template)
      (some create_restaurant_menu_prompt_template) fs now =
    (.ok (),
      ⟨["Main Called", "\nFinal Output:", "Restaurant: " ++ n, "Menu: " ++ m,
          "\n❌ Error saving to file: " ++ msg],
        [namePromptText cuisine, menuPromptText n], [n, m],
        [(reportFilename now, manualReport cuisine n m now)], []⟩) := by
  unfold main
  simp only [name_format, h1, menu_format, h2, h3, List.cons_append, List.nil_append]

theorem main_capfail1 (cuisine : String) (llm : LLM) (fs : FS) (now : DateTime)
    (msg : String) (h : llm (namePromptText cuisine) = .error msg) :
    main cuisine (some llm) (some create_restaurant_name_prompt_template)
      (some create_restaurant_menu_prompt_template) fs now =
    (.error (.capability msg), ⟨["Main Called"], [namePromptText cuisine], [], [], []⟩) := by
  unfold main
  simp only [name_format, h]

theorem main_capfail2 (cuisine : String) (llm : LLM) (fs : FS) (now : DateTime)
    (n msg : String)
    (h1 : llm (namePromptText cuisine) = .ok n)
    (h2 : llm (menuPromptText n) = .error msg) :
    main cuisine (some llm) (some create_restaurant_name_prompt_template)
      (some create_restaurant_menu_prompt_template) fs now =
    (.error (.capability msg),
      ⟨["Main Called"], [namePromptText cuisine, menuPromptText n], [n], [], []⟩) := by
  unfold main
  simp only [name_format, h1, menu_format, h2]

/-- The result dict the sequential chain produces. -/
def seqResult (cuisine n m : String) : List (String × String) :=
  [("cuisine", cuisine), ("restaurant_name", n), ("menu_items", m)]

theorem seq_ok_write (cuisine : String) (llm : LLM) (fs : FS) (now : DateTime)
    (n m : String)
    (h1 : llm (namePromptText cuisine) = .ok n)
    (h2 : llm (menuPromptText n) = .ok m)
    (h3 : fs (reportFilename now) (seqReport cuisine (seqResult cuisine n m) n m now) = .ok ()) :
    main_with_sequential_chain cuisine (some llm)
      (some create_restaurant_name_prompt_template)
      (some create_restaurant_menu_prompt_template) fs now =
    (.ok (seqResult cuisine n m),
      ⟨["Sequential Chain Implementation Called",
          "\nSequential Chain Final Output: " ++ pyDictRepr (seqResult cuisine n m),
          "Restaurant: " ++ n, "Menu: " ++ m,
          "\n✅ Results saved to: " ++ reportFilename now],
        [namePromptText cuisine, menuPromptText n], [n, m],
        [(reportFilename now, seqReport cuisine (seqResult cuisine n m) n m now)],
        [(reportFilename now, seqReport cuisine (seqResult cuisine n m) n m now)]⟩) := by
  unfold main_with_sequential_chain
  simp only [seqResult] at h3
  simp only [name_format, h1, menu_format_seq, h2, h3, List.cons_append, List.nil_append,
    seqResult]
  simp [create_restaurant_name_prompt_template, create_restaurant_menu_prompt_template,
    List.find?]

theorem seq_ok_writefail (cuisine : String) (llm : LLM) (fs : FS) (now : DateTime)
    (n m msg : String)
    (h1 : llm (namePromptText cuisine) = .ok n)
    (h2 : llm (menuPromptText n) = .ok m)
    (h3 : fs (reportFilename now) (seqReport cuisine (seqResult cuisine n m) n m now) =
      .error msg) :
    main_with_sequential_chain cuisine (some llm)
      (some create_restaurant_name_prompt_template)
      (some create_restaurant_menu_prompt_template) fs now =
    (.ok (seqResult cuisine n m),
      ⟨["Sequential Chain Implementation Called",
          "\nSequential Chain Final Output: " ++ pyDictRepr (seqResult cuisine n m),
          "Restaurant: " ++ n, "Menu: " ++ m,
          "\n❌ Error saving to file: " ++ msg],
        [namePromptText cuisine, menuPromptText n], [n, m],
        [(reportFilename now, seqReport cuisine (seqResult cuisine n m) n m now)], []⟩) := by
  unfold main_with_sequential_chain
  simp only [seqResult] at h3
  simp only [name_format, h1, menu_format_seq, h2, h3, List.cons_append, List.nil_append,
    seqResult]
  simp [create_restaurant_name_prompt_template, create_restaurant_menu_prompt_template,
    List.find?]

theorem seq_capfail1 (cuisine : String) (llm : LLM) (fs : FS) (now : DateTime)
    (msg : String) (h : llm (namePromptText cuisine) = .error msg) :
    main_with_sequential_chain cuisine (some llm)
      (some create_restaurant_name_prompt_template)
      (some create_restaurant_menu_prompt_template) fs now =
    (.error (.capability msg),
      ⟨["Sequential Chain Implementation Called"], [namePromptText cuisine], [], [], []⟩) := by
  unfold main_with_sequential_chain
  simp only [name_format, h]
  simp [create_restaurant_name_prompt_template, create_restaurant_menu_prompt_template,
    List.find?]

theorem seq_capfail2 (cuisine : String) (llm : LLM) (fs : FS) (now : DateTime)
    (n msg : String)
    (h1 : llm (namePromptText cuisine) = .ok n)
    (h2 : llm (menuPromptText n) = .error msg) :
    main_with_sequential_chain cuisine (some llm)
      (some create_restaurant_name_prompt_template)
      (some create_restaurant_menu_prompt_template) fs now =
    (.error (.capability msg),
      ⟨["Sequential Chain Implementation Called"],
        [namePromptText cuisine, menuPromptText n], [n], [], []⟩) := by
  unfold main_with_sequential_chain
  simp only [name_format, h1, menu_format_seq, h2, List.cons_append, List.nil_append]
  simp [create_restaurant_name_prompt_template, create_restaurant_menu_prompt_template,
    List.find?]

end Restaurant

namespace Restaurant

/-- A deterministic stub capability realising the spec's concrete scenario:
`"Bella Notte"` for the Italian name prompt, a fixed menu for the resulting
menu prompt, failure on anything else. -/
def stubLLM : LLM := fun p =>
  if p = namePromptText "Italian" then .ok "Bella Notte"
  else if p = menuPromptText "Bella Notte" then
    .ok "Margherita Pizza, Caprese Salad, Bruschetta"
  else .error "unexpected prompt"

/-- A capability stub that always fails. -/
def llmBoom : LLM := fun _ => .error "capability down"

/-- A capability stub that answers the Italian name prompt and fails on
everything else (so the second step fails). -/
def llmMenuBoom : LLM := fun p =>
  if p = namePromptText "Italian" then .ok "Bella Notte" else .error "capability down"

/-- A filesystem on which every write succeeds. -/
def fsOk : FS := fun _ _ => .ok ()

/-- A filesystem on which every write fails. -/
def fsBad : FS := fun _ _ => .error "disk full"

/-- A fixed capture-time timestamp for concrete runs. -/
def now0 : DateTime := ⟨2025, 1, 2, 3, 4, 5⟩

end Restaurant

namespace MemoryChat

/-- The fully rendered conversation prompt for given history text and user
input. -/
def conversationRendered (h u : String) : String :=
  "You are a helpful and friendly AI assistant. You remember our previous conversation.\n\n    Current conversation:\n    " ++
    (h ++ ("\n    Human: " ++ (u ++ "\n    AI:")))

set_option maxRecDepth 8192 in
theorem conversation_template_parts :
    parseParts create_conversation_prompt.template =
      [Piece.lit "You are a helpful and friendly AI assistant. You remember our previous conversation.\n\n    Current conversation:\n    ",
        Piece.var "history", Piece.lit "\n    Human: ", Piece.var "input",
        Piece.lit "\n    AI:"] := by
  rfl

theorem conversation_format (h u : String) :
    create_conversation_prompt.format [("history", h), ("input", u)] =
      .ok (conversationRendered h u) := by
  unfold PromptTemplate.format
  rw [conversation_template_parts]
  simp [renderParts, lookupB, List.find?, conversationRendered, String.append_empty,
    create_conversation_prompt]

theorem conversationTurn_ok (llm : LLM) (hist : List Exchange) (u r : String)
    (h : llm (conversationRendered (loadHistory create_memory hist) u) = .ok r) :
    conversationTurn llm hist u =
      .ok (conversationRendered (loadHistory create_memory hist) u, r, hist ++ [⟨u, r⟩]) := by
  unfold conversationTurn
  simp only [conversation_format, h]

theorem windowBuffer_length_le (k : Nat) (hist : List Exchange) :
    (windowBuffer k hist).length ≤ k := by
  unfold windowBuffer
  rw [List.length_drop]
  omega

theorem windowBuffer_full (k : Nat) (hist : List Exchange) (h : k ≤ hist.length) :
    (windowBuffer k hist).length = k := by
  unfold windowBuffer
  rw [List.length_drop]
  omega

theorem windowBuffer_decomp (k : Nat) (hist : List Exchange) :
    hist.take (hist.length - k) ++ windowBuffer k hist = hist ∧
      (hist.take (hist.length - k)).length = hist.length - k := by
  refine ⟨List.take_append_drop _ _, ?_⟩
  rw [List.length_take]
  omega

/-- A capability stub replying the same fixed text to every prompt. -/
def llmEcho : LLM := fun _ => .ok "Sounds good."

/-- A seven-exchange history, to witness windowing on more than five turns. -/
def hist7 : List Exchange :=
  [⟨"q1", "a1"⟩, ⟨"q2", "a2"⟩, ⟨"q3", "a3"⟩, ⟨"q4", "a4"⟩, ⟨"q5", "a5"⟩,
    ⟨"q6", "a6"⟩, ⟨"q7", "a7"⟩]

end MemoryChat

namespace Restaurant

/-- C1: for every cuisine input, the Manual Runner (`main`) and the Automatic
Runner (`main_with_sequential_chain`), given the same two prompt templates and
any deterministic stubbed completion capability on which both calls succeed,
produce identical ExecutionResult contents — the same `restaurant_name` text
`n` and the same `menu_items` text `m`: the two runners issue the same
completion calls with the same replies, and the sequential runner's returned
mapping binds exactly those texts. -/
theorem claim_runners_identical_results (cuisine : String) (llm : LLM) (fs : FS)
    (now : DateTime) (n m : String)
    (h1 : llm (namePromptText cuisine) = .ok n)
    (h2 : llm (menuPromptText n) = .ok m) :
    (main cuisine (some llm) (some create_restaurant_name_prompt_template)
        (some create_restaurant_menu_prompt_template) fs now).2.completions =
      (main_with_sequential_chain cuisine (some llm)
        (some create_restaurant_name_prompt_template)
        (some create_restaurant_menu_prompt_template) fs now).2.completions ∧
    (main cuisine (some llm) (some create_restaurant_name_prompt_template)
        (some create_restaurant_menu_prompt_template) fs now).2.completions = [n, m] ∧
    (main_with_sequential_chain cuisine (some llm)
        (some create_restaurant_name_prompt_template)
        (some create_restaurant_menu_prompt_template) fs now).1 =
      .ok (seqResult cuisine n m) := by
  cases hm : fs (reportFilename now) (manualReport cuisine n m now) with
  | ok u =>
    cases hs : fs (reportFilename now) (seqReport cuisine (seqResult cuisine n m) n m now) with
    | ok v =>
      rw [main_ok_write cuisine llm fs now n m h1 h2 hm,
        seq_ok_write cuisine llm fs now n m h1 h2 hs]
      exact ⟨rfl, rfl, rfl⟩
    | error msg =>
      rw [main_ok_write cuisine llm fs now n m h1 h2 hm,
        seq_ok_writefail cuisine llm fs now n m msg h1 h2 hs]
      exact ⟨rfl, rfl, rfl⟩
  | error msg =>
    cases hs : fs (reportFilename now) (seqReport cuisine (seqResult cuisine n m) n m now) with
    | ok v =>
      rw [main_ok_writefail cuisine llm fs now n m msg h1 h2 hm,
        seq_ok_write cuisine llm fs now n m h1 h2 hs]
      exact ⟨rfl, rfl, rfl⟩
    | error msg2 =>
      rw [main_ok_writefail cuisine llm fs now n m msg h1 h2 hm,
        seq_ok_writefail cuisine llm fs now n m msg2 h1 h2 hs]
      exact ⟨rfl, rfl, rfl⟩

/-- Witness for C1: the spec's concrete scenario — cuisine `"Italian"`, stub
replies `"Bella Notte"` and the fixed menu — run through both runners. -/
theorem claim_runners_identical_results_witness :
    (main "Italian" (some stubLLM) (some create_restaurant_name_prompt_template)
        (some create_restaurant_menu_prompt_template) fsOk now0).2.completions =
      (main_with_sequential_chain "Italian" (some stubLLM)
        (some create_restaurant_name_prompt_template)
        (some create_restaurant_menu_prompt_template) fsOk now0).2.completions ∧
    (main "Italian" (some stubLLM) (some create_restaurant_name_prompt_template)
        (some create_restaurant_menu_prompt_template) fsOk now0).2.completions =
      ["Bella Notte", "Margherita Pizza, Caprese Salad, Bruschetta"] ∧
    (main_with_sequential_chain "Italian" (some stubLLM)
        (some create_restaurant_name_prompt_template)
        (some create_restaurant_menu_prompt_template) fsOk now0).1 =
      .ok (seqResult "Italian" "Bella Notte" "Margherita Pizza, Caprese Salad, Bruschetta") :=
  claim_runners_identical_results "Italian" stubLLM fsOk now0 "Bella Notte"
    "Margherita Pizza, Caprese Salad, Bruschetta" rfl rfl

/-- C2 counterexample: on a concrete run in which both completion calls
succeed (the capability's two replies are recorded in the effects), the Manual
Runner `main` nevertheless returns Python `None` — in the embedding its
success value has type `Unit`, carrying no mapping at all — because the
source function has no return statement. This refutes the claim that `main`
returns an ExecutionResult mapping with the generated texts under the two
output keys. -/
theorem claim_manual_returns_mapping_cex :
    (main "Italian" (some stubLLM) (some create_restaurant_name_prompt_template)
        (some create_restaurant_menu_prompt_template) fsOk now0).1 = Except.ok () ∧
    (main "Italian" (some stubLLM) (some create_restaurant_name_prompt_template)
        (some create_restaurant_menu_prompt_template) fsOk now0).2.completions =
      ["Bella Notte", "Margherita Pizza, Caprese Salad, Bruschetta"] :=
  ⟨rfl, rfl⟩

/-- C2 as amended: for every cuisine input on which both completion calls
succeed, the Manual Runner `main` terminates normally but returns `None`
(unit); the generated texts appear only in its effects — the two recorded
completions and the report written to the sink — not in its return value. -/
theorem claim_manual_returns_none (cuisine : String) (llm : LLM) (fs : FS)
    (now : DateTime) (n m : String)
    (h1 : llm (namePromptText cuisine) = .ok n)
    (h2 : llm (menuPromptText n) = .ok m) :
    (main cuisine (some llm) (some create_restaurant_name_prompt_template)
        (some create_restaurant_menu_prompt_template) fs now).1 = .ok () ∧
    (main cuisine (some llm) (some create_restaurant_name_prompt_template)
        (some create_restaurant_menu_prompt_template) fs now).2.completions = [n, m] ∧
    (main cuisine (some llm) (some create_restaurant_name_prompt_template)
        (some create_restaurant_menu_prompt_template) fs now).2.writeAttempts =
      [(reportFilename now, manualReport cuisine n m now)] := by
  cases hm : fs (reportFilename now) (manualReport cuisine n m now) with
  | ok u =>
    rw [main_ok_write cuisine llm fs now n m h1 h2 hm]
    exact ⟨rfl, rfl, rfl⟩
  | error msg =>
    rw [main_ok_writefail cuisine llm fs now n m msg h1 h2 hm]
    exact ⟨rfl, rfl, rfl⟩

/-- Witness for the amended C2, at the concrete Bella Notte scenario. -/
theorem claim_manual_returns_none_witness :
    (main "Italian" (some stubLLM) (some create_restaurant_name_prompt_template)
        (some create_restaurant_menu_prompt_template) fsOk now0).1 = .ok () ∧
    (main "Italian" (some stubLLM) (some create_restaurant_name_prompt_template)
        (some create_restaurant_menu_prompt_template) fsOk now0).2.completions =
      ["Bella Notte", "Margherita Pizza, Caprese Salad, Bruschetta"] ∧
    (main "Italian" (some stubLLM) (some create_restaurant_name_prompt_template)
        (some create_restaurant_menu_prompt_template) fsOk now0).2.writeAttempts =
      [(reportFilename now0,
        manualReport "Italian" "Bella Notte" "Margherita Pizza, Caprese Salad, Bruschetta" now0)] :=
  claim_manual_returns_none "Italian" stubLLM fsOk now0 "Bella Notte"
    "Margherita Pizza, Caprese Salad, Bruschetta" rfl rfl

/-- C3: for every run of either runner in which a completion call fails — be
it at the first or at the second step — the run makes no retry (the recorded
prompts are exactly those up to and including the failing call, each once),
propagates the capability error to its caller, produces no result, and never
invokes the sink: no write is attempted and nothing persists. -/
theorem claim_capability_failure_aborts (cuisine : String) (llm : LLM) (fs : FS)
    (now : DateTime) :
    (∀ msg, llm (namePromptText cuisine) = .error msg →
      main cuisine (some llm) (some create_restaurant_name_prompt_template)
          (some create_restaurant_menu_prompt_template) fs now =
        (.error (.capability msg),
          ⟨["Main Called"], [namePromptText cuisine], [], [], []⟩) ∧
      main_with_sequential_chain cuisine (some llm)
          (some create_restaurant_name_prompt_template)
          (some create_restaurant_menu_prompt_template) fs now =
        (.error (.capability msg),
          ⟨["Sequential Chain Implementation Called"], [namePromptText cuisine], [], [], []⟩)) ∧
    (∀ n msg, llm (namePromptText cuisine) = .ok n →
      llm (menuPromptText n) = .error msg →
      main cuisine (some llm) (some create_restaurant_name_prompt_template)
          (some create_restaurant_menu_prompt_template) fs now =
        (.error (.capability msg),
          ⟨["Main Called"], [namePromptText cuisine, menuPromptText n], [n], [], []⟩) ∧
      main_with_sequential_chain cuisine (some llm)
          (some create_restaurant_name_prompt_template)
          (some create_restaurant_menu_prompt_template) fs now =
        (.error (.capability msg),
          ⟨["Sequential Chain Implementation Called"],
            [namePromptText cuisine, menuPromptText n], [n], [], []⟩)) := by
  constructor
  · intro msg h
    exact ⟨main_capfail1 cuisine llm fs now msg h, seq_capfail1 cuisine llm fs now msg h⟩
  · intro n msg h1 h2
    exact ⟨main_capfail2 cuisine llm fs now n msg h1 h2,
      seq_capfail2 cuisine llm fs now n msg h1 h2⟩

/-- Witness for C3: a capability that is down fails the first step of both
runners; no file write happens and the error propagates. -/
theorem claim_capability_failure_aborts_witness :
    main "Italian" (some llmBoom) (some create_restaurant_name_prompt_template)
        (some create_restaurant_menu_prompt_template) fsOk now0 =
      (.error (.capability "capability down"),
        ⟨["Main Called"], [namePromptText "Italian"], [], [], []⟩) ∧
    main_with_sequential_chain "Italian" (some llmBoom)
        (some create_restaurant_name_prompt_template)
        (some create_restaurant_menu_prompt_template) fsOk now0 =
      (.error (.capability "capability down"),
        ⟨["Sequential Chain Implementation Called"], [namePromptText "Italian"], [], [], []⟩) :=
  (claim_capability_failure_aborts "Italian" llmBoom fsOk now0).1 "capability down" rfl

/-- C4: for every run in which both completion calls succeed but the report
write fails, the failure is reported on the console (the `❌` line carrying the
error message) and does not propagate: the Manual Runner still terminates
normally returning `None`, the Automatic Runner still returns the complete
result mapping, and in both the failed write persists nothing. -/
theorem claim_sink_failure_swallowed (cuisine : String) (llm : LLM) (fs : FS)
    (now : DateTime) (n m msg1 msg2 : String)
    (h1 : llm (namePromptText cuisine) = .ok n)
    (h2 : llm (menuPromptText n) = .ok m)
    (hw1 : fs (reportFilename now) (manualReport cuisine n m now) = .error msg1)
    (hw2 : fs (reportFilename now) (seqReport cuisine (seqResult cuisine n m) n m now) =
      .error msg2) :
    main cuisine (some llm) (some create_restaurant_name_prompt_template)
        (some create_restaurant_menu_prompt_template) fs now =
      (.ok (),
        ⟨["Main Called", "\nFinal Output:", "Restaurant: " ++ n, "Menu: " ++ m,
            "\n❌ Error saving to file: " ++ msg1],
          [namePromptText cuisine, menuPromptText n], [n, m],
          [(reportFilename now, manualReport cuisine n m now)], []⟩) ∧
    main_with_sequential_chain cuisine (some llm)
        (some create_restaurant_name_prompt_template)
        (some create_restaurant_menu_prompt_template) fs now =
      (.ok (seqResult cuisine n m),
        ⟨["Sequential Chain Implementation Called",
            "\nSequential Chain Final Output: " ++ pyDictRepr (seqResult cuisine n m),
            "Restaurant: " ++ n, "Menu: " ++ m,
            "\n❌ Error saving to file: " ++ msg2],
          [namePromptText cuisine, menuPromptText n], [n, m],
          [(reportFilename now, seqReport cuisine (seqResult cuisine n m) n m now)], []⟩) :=
  ⟨main_ok_writefail cuisine llm fs now n m msg1 h1 h2 hw1,
    seq_ok_writefail cuisine llm fs now n m msg2 h1 h2 hw2⟩

/-- Witness for C4: the Bella Notte scenario on a filesystem whose writes all
fail. -/
theorem claim_sink_failure_swallowed_witness :
    main "Italian" (some stubLLM) (some create_restaurant_name_prompt_template)
        (some create_restaurant_menu_prompt_template) fsBad now0 =
      (.ok (),
        ⟨["Main Called", "\nFinal Output:", "Restaurant: " ++ "Bella Notte",
            "Menu: " ++ "Margherita Pizza, Caprese Salad, Bruschetta",
            "\n❌ Error saving to file: " ++ "disk full"],
          [namePromptText "Italian", menuPromptText "Bella Notte"],
          ["Bella Notte", "Margherita Pizza, Caprese Salad, Bruschetta"],
          [(reportFilename now0,
            manualReport "Italian" "Bella Notte" "Margherita Pizza, Caprese Salad, Bruschetta" now0)],
          []⟩) ∧
    main_with_sequential_chain "Italian" (some stubLLM)
        (some create_restaurant_name_prompt_template)
        (some create_restaurant_menu_prompt_template) fsBad now0 =
      (.ok (seqResult "Italian" "Bella Notte" "Margherita Pizza, Caprese Salad, Bruschetta"),
        ⟨["Sequential Chain Implementation Called",
            "\nSequential Chain Final Output: " ++
              pyDictRepr (seqResult "Italian" "Bella Notte" "Margherita Pizza, Caprese Salad, Bruschetta"),
            "Restaurant: " ++ "Bella Notte",
            "Menu: " ++ "Margherita Pizza, Caprese Salad, Bruschetta",
            "\n❌ Error saving to file: " ++ "disk full"],
          [namePromptText "Italian", menuPromptText "Bella Notte"],
          ["Bella Notte", "Margherita Pizza, Caprese Salad, Bruschetta"],
          [(reportFilename now0,
            seqReport "Italian"
              (seqResult "Italian" "Bella Notte" "Margherita Pizza, Caprese Salad, Bruschetta")
              "Bella Notte" "Margherita Pizza, Caprese Salad, Bruschetta" now0)],
          []⟩) :=
  claim_sink_failure_swallowed "Italian" stubLLM fsBad now0 "Bella Notte"
    "Margherita Pizza, Caprese Salad, Bruschetta" "disk full" "disk full" rfl rfl rfl rfl

end Restaurant

namespace Restaurant

set_option maxRecDepth 8192 in
/-- C5 counterexample: on the concrete Bella Notte run the emitted report
does not follow the claimed seven-line layout "with no other lines": the
persisted content, split into lines, has eleven lines — among them a
`Method: Manual Chain Management` line and four blank lines, none of which
appear in the claimed layout. -/
theorem claim_report_layout_cex :
    (main "Italian" (some stubLLM) (some create_restaurant_name_prompt_template)
        (some create_restaurant_menu_prompt_template) fsOk now0).2.persisted =
      [(reportFilename now0,
        manualReport "Italian" "Bella Notte" "Margherita Pizza, Caprese Salad, Bruschetta" now0)] ∧
    splitLines
        (manualReport "Italian" "Bella Notte" "Margherita Pizza, Caprese Salad, Bruschetta" now0) =
      ["=== LangChain Restaurant Generator Output ===",
        "Generated on: 2025-01-02 03:04:05",
        "Method: Manual Chain Management",
        "Cuisine Type: Italian",
        dashes50, "",
        "Restaurant Name: Bella Notte", "",
        "Menu Items: Margherita Pizza, Caprese Salad, Bruschetta", "",
        equals50] := by
  exact ⟨rfl, rfl⟩

/-- C5 as amended: for every successful run the report file is named
`restaurant_output_<YYYYMMDD_HHMMSS>.txt` in the working directory, and its
content follows the fixed layout of `manualReport` for the Manual Runner —
header, `Generated on:` line, a `Method: Manual Chain Management` line,
`Cuisine Type:` line, 50-dash separator, then blank-line-separated
`Restaurant Name:` and `Menu Items:` lines and the 50-equals footer — and of
`seqReport` for the Automatic Runner, which has no `Method` line but an extra
`Sequential Chain Final Output: <result dict>` line after the separator. -/
theorem claim_report_layout_actual (cuisine : String) (llm : LLM) (fs : FS)
    (now : DateTime) (n m : String)
    (h1 : llm (namePromptText cuisine) = .ok n)
    (h2 : llm (menuPromptText n) = .ok m)
    (hw1 : fs (reportFilename now) (manualReport cuisine n m now) = .ok ())
    (hw2 : fs (reportFilename now) (seqReport cuisine (seqResult cuisine n m) n m now) =
      .ok ()) :
    (main cuisine (some llm) (some create_restaurant_name_prompt_template)
        (some create_restaurant_menu_prompt_template) fs now).2.persisted =
      [(reportFilename now, manualReport cuisine n m now)] ∧
    (main_with_sequential_chain cuisine (some llm)
        (some create_restaurant_name_prompt_template)
        (some create_restaurant_menu_prompt_template) fs now).2.persisted =
      [(reportFilename now, seqReport cuisine (seqResult cuisine n m) n m now)] ∧
    reportFilename now = "restaurant_output_" ++ now.compact ++ ".txt" := by
  rw [main_ok_write cuisine llm fs now n m h1 h2 hw1,
    seq_ok_write cuisine llm fs now n m h1 h2 hw2]
  exact ⟨rfl, rfl, rfl⟩

/-- Witness for the amended C5, at the concrete Bella Notte scenario. -/
theorem claim_report_layout_actual_witness :
    (main "Italian" (some stubLLM) (some create_restaurant_name_prompt_template)
        (some create_restaurant_menu_prompt_template) fsOk now0).2.persisted =
      [(reportFilename now0,
        manualReport "Italian" "Bella Notte" "Margherita Pizza, Caprese Salad, Bruschetta" now0)] ∧
    (main_with_sequential_chain "Italian" (some stubLLM)
        (some create_restaurant_name_prompt_template)
        (some create_restaurant_menu_prompt_template) fsOk now0).2.persisted =
      [(reportFilename now0,
        seqReport "Italian"
          (seqResult "Italian" "Bella Notte" "Margherita Pizza, Caprese Salad, Bruschetta")
          "Bella Notte" "Margherita Pizza, Caprese Salad, Bruschetta" now0)] ∧
    reportFilename now0 = "restaurant_output_" ++ now0.compact ++ ".txt" :=
  claim_report_layout_actual "Italian" stubLLM fsOk now0 "Bella Notte"
    "Margherita Pizza, Caprese Salad, Bruschetta" rfl rfl rfl rfl

/-- C6: on every successful run of either runner the data flow is strictly
linear with exactly two completion calls in order — the first rendered prompt
is a function of the cuisine alone, the second a function of the first call's
reply alone (bound to the `restaurant_name` placeholder) — and the single
write the sink attempts is a function of the cuisine, the two replies and the
capture-time timestamp only. -/
theorem claim_linear_data_flow (cuisine : String) (llm : LLM) (fs : FS)
    (now : DateTime) (n m : String)
    (h1 : llm (namePromptText cuisine) = .ok n)
    (h2 : llm (menuPromptText n) = .ok m) :
    (main cuisine (some llm) (some create_restaurant_name_prompt_template)
        (some create_restaurant_menu_prompt_template) fs now).2.prompts =
      [namePromptText cuisine, menuPromptText n] ∧
    (main_with_sequential_chain cuisine (some llm)
        (some create_restaurant_name_prompt_template)
        (some create_restaurant_menu_prompt_template) fs now).2.prompts =
      [namePromptText cuisine, menuPromptText n] ∧
    (main cuisine (some llm) (some create_restaurant_name_prompt_template)
        (some create_restaurant_menu_prompt_template) fs now).2.completions = [n, m] ∧
    (main_with_sequential_chain cuisine (some llm)
        (some create_restaurant_name_prompt_template)
        (some create_restaurant_menu_prompt_template) fs now).2.completions = [n, m] ∧
    (main cuisine (some llm) (some create_restaurant_name_prompt_template)
        (some create_restaurant_menu_prompt_template) fs now).2.writeAttempts =
      [(reportFilename now, manualReport cuisine n m now)] ∧
    (main_with_sequential_chain cuisine (some llm)
        (some create_restaurant_name_prompt_template)
        (some create_restaurant_menu_prompt_template) fs now).2.writeAttempts =
      [(reportFilename now, seqReport cuisine (seqResult cuisine n m) n m now)] := by
  cases hm : fs (reportFilename now) (manualReport cuisine n m now) with
  | ok u =>
    cases hs : fs (reportFilename now) (seqReport cuisine (seqResult cuisine n m) n m now) with
    | ok v =>
      rw [main_ok_write cuisine llm fs now n m h1 h2 hm,
        seq_ok_write cuisine llm fs now n m h1 h2 hs]
      exact ⟨rfl, rfl, rfl, rfl, rfl, rfl⟩
    | error msg =>
      rw [main_ok_write cuisine llm fs now n m h1 h2 hm,
        seq_ok_writefail cuisine llm fs now n m msg h1 h2 hs]
      exact ⟨rfl, rfl, rfl, rfl, rfl, rfl⟩
  | error msg =>
    cases hs : fs (reportFilename now) (seqReport cuisine (seqResult cuisine n m) n m now) with
    | ok v =>
      rw [main_ok_writefail cuisine llm fs now n m msg h1 h2 hm,
        seq_ok_write cuisine llm fs now n m h1 h2 hs]
      exact ⟨rfl, rfl, rfl, rfl, rfl, rfl⟩
    | error msg2 =>
      rw [main_ok_writefail cuisine llm fs now n m msg h1 h2 hm,
        seq_ok_writefail cuisine llm fs now n m msg2 h1 h2 hs]
      exact ⟨rfl, rfl, rfl, rfl, rfl, rfl⟩

/-- Witness for C6, at the concrete Bella Notte scenario. -/
theorem claim_linear_data_flow_witness :
    (main "Italian" (some stubLLM) (some create_restaurant_name_prompt_template)
        (some create_restaurant_menu_prompt_template) fsOk now0).2.prompts =
      [namePromptText "Italian", menuPromptText "Bella Notte"] ∧
    (main_with_sequential_chain "Italian" (some stubLLM)
        (some create_restaurant_name_prompt_template)
        (some create_restaurant_menu_prompt_template) fsOk now0).2.prompts =
      [namePromptText "Italian", menuPromptText "Bella Notte"] ∧
    (main "Italian" (some stubLLM) (some create_restaurant_name_prompt_template)
        (some create_restaurant_menu_prompt_template) fsOk now0).2.completions =
      ["Bella Notte", "Margherita Pizza, Caprese Salad, Bruschetta"] ∧
    (main_with_sequential_chain "Italian" (some stubLLM)
        (some create_restaurant_name_prompt_template)
        (some create_restaurant_menu_prompt_template) fsOk now0).2.completions =
      ["Bella Notte", "Margherita Pizza, Caprese Salad, Bruschetta"] ∧
    (main "Italian" (some stubLLM) (some create_restaurant_name_prompt_template)
        (some create_restaurant_menu_prompt_template) fsOk now0).2.writeAttempts =
      [(reportFilename now0,
        manualReport "Italian" "Bella Notte" "Margherita Pizza, Caprese Salad, Bruschetta" now0)] ∧
    (main_with_sequential_chain "Italian" (some stubLLM)
        (some create_restaurant_name_prompt_template)
        (some create_restaurant_menu_prompt_template) fsOk now0).2.writeAttempts =
      [(reportFilename now0,
        seqReport "Italian"
          (seqResult "Italian" "Bella Notte" "Margherita Pizza, Caprese Salad, Bruschetta")
          "Bella Notte" "Margherita Pizza, Caprese Salad, Bruschetta" now0)] :=
  claim_linear_data_flow "Italian" stubLLM fsOk now0 "Bella Notte"
    "Margherita Pizza, Caprese Salad, Bruschetta" rfl rfl

/-- A stub capability for the empty-cuisine scenario. -/
def stubLLMEmpty : LLM := fun p =>
  if p = namePromptText "" then .ok "Bella Notte"
  else if p = menuPromptText "Bella Notte" then
    .ok "Margherita Pizza, Caprese Salad, Bruschetta"
  else .error "unexpected prompt"

/-- C7: the empty cuisine string raises no validation error in template
rendering — the empty but present binding passes through into the name
prompt — and the run then proceeds exactly as for any other cuisine: both
chains are invoked in order and the run terminates normally. -/
theorem claim_empty_cuisine :
    create_restaurant_name_prompt_template.format [("cuisine", "")] =
      .ok (namePromptText "") ∧
    ∀ (llm : LLM) (fs : FS) (now : DateTime) (n m : String),
      llm (namePromptText "") = .ok n → llm (menuPromptText n) = .ok m →
      (main "" (some llm) (some create_restaurant_name_prompt_template)
          (some create_restaurant_menu_prompt_template) fs now).1 = .ok () ∧
      (main "" (some llm) (some create_restaurant_name_prompt_template)
          (some create_restaurant_menu_prompt_template) fs now).2.prompts =
        [namePromptText "", menuPromptText n] ∧
      (main "" (some llm) (some create_restaurant_name_prompt_template)
          (some create_restaurant_menu_prompt_template) fs now).2.completions = [n, m] := by
  refine ⟨name_format "", ?_⟩
  intro llm fs now n m h1 h2
  cases hm : fs (reportFilename now) (manualReport "" n m now) with
  | ok u =>
    rw [main_ok_write "" llm fs now n m h1 h2 hm]
    exact ⟨rfl, rfl, rfl⟩
  | error msg =>
    rw [main_ok_writefail "" llm fs now n m msg h1 h2 hm]
    exact ⟨rfl, rfl, rfl⟩

/-- Witness for C7: a concrete empty-cuisine run completes both steps. -/
theorem claim_empty_cuisine_witness :
    (main "" (some stubLLMEmpty) (some create_restaurant_name_prompt_template)
        (some create_restaurant_menu_prompt_template) fsOk now0).1 = .ok () ∧
    (main "" (some stubLLMEmpty) (some create_restaurant_name_prompt_template)
        (some create_restaurant_menu_prompt_template) fsOk now0).2.prompts =
      [namePromptText "", menuPromptText "Bella Notte"] ∧
    (main "" (some stubLLMEmpty) (some create_restaurant_name_prompt_template)
        (some create_restaurant_menu_prompt_template) fsOk now0).2.completions =
      ["Bella Notte", "Margherita Pizza, Caprese Salad, Bruschetta"] :=
  claim_empty_cuisine.2 stubLLMEmpty fsOk now0 "Bella Notte"
    "Margherita Pizza, Caprese Salad, Bruschetta" rfl rfl

end Restaurant

namespace Restaurant

set_option maxRecDepth 8192 in
/-- C8: for each of the three `PromptTemplate`s the program constructs — the
restaurant-name template, the menu template and the conversation template —
the placeholder names referenced in its format string are exactly its declared
input-variable names (and, the templates being constants of the embedding,
none is ever mutated after construction). -/
theorem claim_template_placeholders :
    placeholders create_restaurant_name_prompt_template.template =
      create_restaurant_name_prompt_template.input_variables ∧
    placeholders create_restaurant_menu_prompt_template.template =
      create_restaurant_menu_prompt_template.input_variables ∧
    placeholders MemoryChat.create_conversation_prompt.template =
      MemoryChat.create_conversation_prompt.input_variables := by
  exact ⟨rfl, rfl, rfl⟩

/-- C10 counterexample: for the concrete invalid choice `"3"` the fallback
path fails with `TypeError: main() missing 1 required positional argument`,
raised at the bare `main()` call itself: `main`'s body is never entered (its
very first print, `Main Called`, is absent), so the failure is not — as the
claim has it — a `None` template composed with a `None` model inside `main`;
the last two conjuncts show what entering `main` with `None` collaborators
would have looked like instead. -/
theorem claim_fallback_cex :
    entryPoint "3" "Italian" stubLLM fsOk now0 =
      (.error (.typeError "main() missing 1 required positional argument: cuisine"),
        ⟨menuPrints ++ ["Invalid choice. Running default implementation."], [], [], [], []⟩) ∧
    "Main Called" ∉ (entryPoint "3" "Italian" stubLLM fsOk now0).2.printed ∧
    (main "Italian" none none none fsOk now0).1 =
      .error (.typeError "unsupported operand type(s) for |: NoneType") ∧
    (main "Italian" none none none fsOk now0).2.printed = ["Main Called"] := by
  refine ⟨rfl, ?_, rfl, rfl⟩
  decide

/-- C10 as amended: for every interactive choice other than `"1"` or `"2"`,
the fallback invokes `main()` with no arguments; because the required
positional parameter `cuisine` has no default, this raises `TypeError` at the
call itself — before `main`'s body, before any template/model composition and
before any completion call — so the advertised default-implementation path
never produces a result: no prompt is sent and nothing is written. -/
theorem claim_fallback_typeerror (choice cuisine : String) (llm : LLM) (fs : FS)
    (now : DateTime) (hc1 : choice ≠ "1") (hc2 : choice ≠ "2") :
    entryPoint choice cuisine llm fs now =
      (.error (.typeError "main() missing 1 required positional argument: cuisine"),
        ⟨menuPrints ++ ["Invalid choice. Running default implementation."], [], [], [], []⟩) := by
  unfold entryPoint
  rw [if_neg hc1, if_neg hc2]

/-- Witness for the amended C10, at the concrete choice `"3"`. -/
theorem claim_fallback_typeerror_witness :
    entryPoint "3" "Italian" stubLLM fsOk now0 =
      (.error (.typeError "main() missing 1 required positional argument: cuisine"),
        ⟨menuPrints ++ ["Invalid choice. Running default implementation."], [], [], [], []⟩) :=
  claim_fallback_typeerror "3" "Italian" stubLLM fsOk now0 (by decide) (by decide)

end Restaurant

namespace MemoryChat

/-- C9: whatever the conversation history, a turn of the conversational chain
renders its prompt with a `history` binding built from the bounded window
only: the window is the suffix of at most the five most recent exchanges
(exactly five once the history is that long), every exchange before that
suffix is dropped from it, and the memory then appends the new exchange. -/
theorem claim_memory_window (llm : LLM) (hist : List Exchange) (u p r : String)
    (h2 : List Exchange)
    (h : conversationTurn llm hist u = .ok (p, r, h2)) :
    p = conversationRendered (loadHistory create_memory hist) u ∧
    loadHistory create_memory hist =
      String.intercalate "\n" ((windowBuffer 5 hist).map formatExchange) ∧
    (windowBuffer 5 hist).length ≤ 5 ∧
    (5 ≤ hist.length → (windowBuffer 5 hist).length = 5) ∧
    hist.take (hist.length - 5) ++ windowBuffer 5 hist = hist ∧
    (hist.take (hist.length - 5)).length = hist.length - 5 ∧
    h2 = hist ++ [⟨u, r⟩] := by
  unfold conversationTurn at h
  simp only [conversation_format] at h
  cases hl : llm (conversationRendered (loadHistory create_memory hist) u) with
  | error msg =>
    rw [hl] at h
    cases h
  | ok resp =>
    rw [hl] at h
    simp only [Except.ok.injEq, Prod.mk.injEq] at h
    obtain ⟨hp, hr, hh⟩ := h
    subst hr
    refine ⟨hp.symm, rfl, windowBuffer_length_le 5 hist, ?_,
      (windowBuffer_decomp 5 hist).1, (windowBuffer_decomp 5 hist).2, hh.symm⟩
    intro hk
    exact windowBuffer_full 5 hist hk

set_option maxRecDepth 8192 in
/-- Witness for C9: a seven-exchange history; the rendered window is the
five-exchange suffix, the first two exchanges are dropped. -/
theorem claim_memory_window_witness :
    conversationRendered (loadHistory create_memory hist7) "What about dessert?" =
      conversationRendered (loadHistory create_memory hist7) "What about dessert?" ∧
    loadHistory create_memory hist7 =
      String.intercalate "\n" ((windowBuffer 5 hist7).map formatExchange) ∧
    (windowBuffer 5 hist7).length ≤ 5 ∧
    (5 ≤ hist7.length → (windowBuffer 5 hist7).length = 5) ∧
    hist7.take (hist7.length - 5) ++ windowBuffer 5 hist7 = hist7 ∧
    (hist7.take (hist7.length - 5)).length = hist7.length - 5 ∧
    hist7 ++ [Exchange.mk "What about dessert?" "Sounds good."] =
      hist7 ++ [Exchange.mk "What about dessert?" "Sounds good."] :=
  claim_memory_window llmEcho hist7 "What about dessert?"
    (conversationRendered (loadHistory create_memory hist7) "What about dessert?")
    "Sounds good." (hist7 ++ [Exchange.mk "What about dessert?" "Sounds good."]) (by rfl)

end MemoryChat
